import Mathlib

/-!
Verification of the numeric core of the VeriLeaf AI pipeline
(src/client/ai_pipeline/api_server.py): vegetation-index computation,
metrics aggregation, and before/after impact analysis.

Arithmetic is modelled exactly: scalar pipeline values are rationals
(reals where a logarithm or a square root appears), and numpy clip is
min hi (max lo x).  Python dictionaries holding metric summaries are
association lists with a get-with-default lookup.
-/

namespace VeriLeaf

/-- Module-level numeric stabilizer of api_server.py: EPS = 1e-6. -/
def EPS : ℚ := 1 / 1000000

/-- np.clip over a linear order: result is x pulled into the band,
written as min hi (max lo x). -/
def clip {α : Type} [LinearOrder α] (x lo hi : α) : α := min hi (max lo x)

theorem clip_mem {α : Type} [LinearOrder α] (x lo hi : α) (h : lo ≤ hi) :
    lo ≤ clip x lo hi ∧ clip x lo hi ≤ hi := by
  unfold clip
  exact ⟨le_min h (le_max_left lo x), min_le_left hi _⟩

theorem clip_mono {α : Type} [LinearOrder α] {x y : α} (lo hi : α) (hxy : x ≤ y) :
    clip x lo hi ≤ clip y lo hi := by
  unfold clip
  exact min_le_min le_rfl (max_le_max le_rfl hxy)

/- String constants appearing as keys and labels in api_server.py. -/

def sMean : String := "_mean"

def sStd : String := "_std"

def sMax : String := "_max"

def sMin : String := "_min"

def metNdvi : String := "ndvi"

def metEvi : String := "evi"

def metNdwi : String := "ndwi"

def metSavi : String := "savi"

def metFvc : String := "fvc"

def metLai : String := "lai"

def catExcellent : String := "Excellent"

def catGood : String := "Good"

def catModerate : String := "Moderate"

def catPoor : String := "Poor"

def catVeryPoor : String := "Very Poor"

/-- Python dict.get(key, default) on an association list of metric values. -/
def dictGet (d : List (String × ℚ)) (k : String) (v : ℚ) : ℚ :=
  match d.find? (fun kv => kv.1 == k) with
  | some kv => kv.2
  | none => v

/-- Inner helper change_pct of _impact_analysis:
((after[m_mean] - before[m_mean]) / (|before[m_mean]| + EPS)) * 100,
missing keys defaulting to 0. -/
def change_pct (before after : List (String × ℚ)) (metric : String) : ℚ :=
  let b := dictGet before (metric ++ sMean) 0
  let a := dictGet after (metric ++ sMean) 0
  ((a - b) / (|b| + EPS)) * 100

/-- Weighted score of _impact_analysis:
0.4 * ndvi_ch + 0.2 * evi_ch + 0.2 * fvc_ch + 0.2 * lai_ch. -/
def weighted_score_of (before after : List (String × ℚ)) : ℚ :=
  0.4 * change_pct before after metNdvi + 0.2 * change_pct before after metEvi
    + 0.2 * change_pct before after metFvc + 0.2 * change_pct before after metLai

/-- Noise penalty term of _impact_analysis: the sum of
|before[m_std] - after[m_std]| over m in [ndvi, evi, fvc, lai],
missing keys defaulting to 0. -/
def noise_of (before after : List (String × ℚ)) : ℚ :=
  ([metNdvi, metEvi, metFvc, metLai].map
    (fun m => |dictGet before (m ++ sStd) 0 - dictGet after (m ++ sStd) 0|)).sum

/-- Category label chain of _impact_analysis, thresholds checked high to low. -/
def categoryOf (impact_score : ℚ) : String :=
  if impact_score ≥ 80 then catExcellent
  else if impact_score ≥ 65 then catGood
  else if impact_score ≥ 50 then catModerate
  else if impact_score ≥ 35 then catPoor
  else catVeryPoor

/-- Return record of _impact_analysis. -/
structure ImpactReport where
  impact_score : ℚ
  confidence : ℚ
  category : String
  ndvi_change_percent : ℚ
  evi_change_percent : ℚ
  fvc_change_percent : ℚ
  lai_change_percent : ℚ
  weighted_score : ℚ

/-- _impact_analysis of api_server.py: percent changes, weighted score,
impact score np.clip(50 + weighted / 2, 0, 100), category, and confidence
np.clip(70 - noise * 5, 50, 95). -/
def impact_analysis (before after : List (String × ℚ)) : ImpactReport :=
  let weighted := weighted_score_of before after
  let impact_score := clip (50 + weighted / 2) 0 100
  { impact_score := impact_score
    confidence := clip (70 - noise_of before after * 5) 50 95
    category := categoryOf impact_score
    ndvi_change_percent := change_pct before after metNdvi
    evi_change_percent := change_pct before after metEvi
    fvc_change_percent := change_pct before after metFvc
    lai_change_percent := change_pct before after metLai
    weighted_score := weighted }

/-- One pixel of a decoded raster: normalized red/green/blue channels. -/
structure Pixel where
  R : ℚ
  G : ℚ
  B : ℚ

/-- Visible NDVI proxy of _compute_indices: (G - R) / (G + R + EPS). -/
def vndvi (p : Pixel) : ℚ := (p.G - p.R) / (p.G + p.R + EPS)

/-- Visible EVI proxy of _compute_indices:
2.5 * (G - R) / (G + 6 * R - 7.5 * B + 1 + EPS). -/
def evi_raw (p : Pixel) : ℚ :=
  2.5 * (p.G - p.R) / (p.G + 6 * p.R - 7.5 * p.B + 1 + EPS)

/-- Visible NDWI variant of _compute_indices: (G - B) / (G + B + EPS). -/
def ndwi_raw (p : Pixel) : ℚ := (p.G - p.B) / (p.G + p.B + EPS)

/-- SAVI proxy of _compute_indices: 1.5 * (G - R) / (G + R + 0.5 + EPS). -/
def savi_raw (p : Pixel) : ℚ := 1.5 * (p.G - p.R) / (p.G + p.R + 0.5 + EPS)

/-- Soil NDVI anchor of _compute_indices. -/
def ndvi_soil : ℚ := 0.2

/-- Vegetation NDVI anchor of _compute_indices. -/
def ndvi_veg : ℚ := 0.86

/-- FVC as a function of the (unclipped) visible NDVI value:
np.clip((v - 0.2) / (0.86 - 0.2 + EPS), 0, 1) ** 2. -/
def fvc_of_ndvi (v : ℚ) : ℚ :=
  (clip ((v - ndvi_soil) / (ndvi_veg - ndvi_soil + EPS)) 0 1) ^ 2

/-- FVC raster value of _compute_indices, derived from vndvi. -/
def fvc_raw (p : Pixel) : ℚ := fvc_of_ndvi (vndvi p)

/-- LAI raster value of _compute_indices before the final clip:
-np.log(1 - np.clip(fvc, 0, 0.99) + EPS). -/
noncomputable def lai_raw (p : Pixel) : ℝ :=
  -Real.log (1 - ((clip (fvc_raw p) 0 0.99 : ℚ) : ℝ) + ((EPS : ℚ) : ℝ))

/-- The six index rasters returned by _compute_indices. -/
structure IndexRasters where
  ndvi : List ℚ
  evi : List ℚ
  ndwi : List ℚ
  savi : List ℚ
  fvc : List ℚ
  lai : List ℝ

/-- _compute_indices of api_server.py: the six element-wise index rasters,
each clipped to its declared range as the final step. -/
noncomputable def compute_indices (r : List Pixel) : IndexRasters :=
  { ndvi := r.map (fun p => clip (vndvi p) (-1) 1)
    evi := r.map (fun p => clip (evi_raw p) (-1) 1)
    ndwi := r.map (fun p => clip (ndwi_raw p) (-1) 1)
    savi := r.map (fun p => clip (savi_raw p) (-1) 1)
    fvc := r.map (fun p => clip (fvc_raw p) 0 1)
    lai := r.map (fun p => clip (lai_raw p) 0 6) }

/-- np.nanmean over a raster given as a list of (finite) reals. -/
noncomputable def listMean (l : List ℝ) : ℝ := l.sum / l.length

/-- np.nanstd: square root of the mean squared deviation from the mean. -/
noncomputable def listStd (l : List ℝ) : ℝ :=
  Real.sqrt ((l.map (fun x => (x - listMean l) ^ 2)).sum / l.length)

/-- np.nanmax: the greatest element, computed as the supremum of the
corresponding multiset in WithBot; 0 for the (never aggregated) empty raster. -/
noncomputable def listMax (l : List ℝ) : ℝ :=
  ((l.map (fun (x : ℝ) => (x : WithBot ℝ)) : List (WithBot ℝ)) : Multiset (WithBot ℝ)).sup.unbot' 0

/-- np.nanmin: the least element, computed as the infimum of the
corresponding multiset in WithTop; 0 for the (never aggregated) empty raster. -/
noncomputable def listMin (l : List ℝ) : ℝ :=
  ((l.map (fun (x : ℝ) => (x : WithTop ℝ)) : List (WithTop ℝ)) : Multiset (WithTop ℝ)).inf.untop' 0

/-- Key for the mean entry of _metrics_summary. -/
def strMean : String := "mean"

/-- Key for the std entry of _metrics_summary. -/
def strStd : String := "std"

/-- Key for the max entry of _metrics_summary. -/
def strMax : String := "max"

/-- Key for the min entry of _metrics_summary. -/
def strMin : String := "min"

/-- _metrics_summary of api_server.py: the four reductions of one raster. -/
noncomputable def metrics_summary (l : List ℝ) : List (String × ℝ) :=
  [(strMean, listMean l), (strStd, listStd l), (strMax, listMax l), (strMin, listMin l)]

/-- The four entries contributed to the 24-entry summary by one index
raster, keyed key_mean, key_std, key_max, key_min. -/
noncomputable def summary_entries (key : String) (l : List ℝ) : List (String × ℝ) :=
  [(key ++ sMean, listMean l), (key ++ sStd, listStd l),
   (key ++ sMax, listMax l), (key ++ sMin, listMin l)]

/-- _compute_metrics of api_server.py: compute the six index rasters and
aggregate each into its four statistics, in source dict order. -/
noncomputable def compute_metrics (r : List Pixel) : List (String × ℝ) :=
  let idx := compute_indices r
  summary_entries metNdvi (idx.ndvi.map (fun q => (q : ℝ))) ++
  summary_entries metEvi (idx.evi.map (fun q => (q : ℝ))) ++
  summary_entries metNdwi (idx.ndwi.map (fun q => (q : ℝ))) ++
  summary_entries metSavi (idx.savi.map (fun q => (q : ℝ))) ++
  summary_entries metFvc (idx.fvc.map (fun q => (q : ℝ))) ++
  summary_entries metLai idx.lai

theorem change_pct_self (d : List (String × ℚ)) (m : String) : change_pct d d m = 0 := by
  simp only [change_pct]
  simp

theorem noise_nonneg (b a : List (String × ℚ)) : 0 ≤ noise_of b a := by
  unfold noise_of
  apply List.sum_nonneg
  intro x hx
  simp only [List.mem_map] at hx
  obtain ⟨m, _, rfl⟩ := hx
  exact abs_nonneg _

/-- Claim C3: for identical before and after summaries the impact score is
exactly 50, and in general the impact score equals
clip (50 + weighted_score / 2) 0 100 for the weighted sum of the four
percent changes. -/
theorem c3_impact_score_formula :
    (∀ d : List (String × ℚ), (impact_analysis d d).impact_score = 50) ∧
    ∀ before after : List (String × ℚ),
      (impact_analysis before after).impact_score =
        clip (50 + weighted_score_of before after / 2) 0 100 := by
  constructor
  · intro d
    show clip (50 + weighted_score_of d d / 2) 0 100 = 50
    have hw : weighted_score_of d d = 0 := by
      simp only [weighted_score_of, change_pct_self]
      norm_num
    rw [hw]
    unfold clip
    norm_num
  · intro b a
    rfl

/-- Claim C4: the category is assigned from the impact score by inclusive
lower band edges checked high to low, with 80 mapping to Excellent,
79.999 to Good, 50 to Moderate, 49.999 to Poor and 0 to Very Poor. -/
theorem c4_category_thresholds :
    (∀ before after : List (String × ℚ),
      (impact_analysis before after).category =
        categoryOf (impact_analysis before after).impact_score) ∧
    (∀ s : ℚ,
      (80 ≤ s → categoryOf s = "Excellent") ∧
      (65 ≤ s → s < 80 → categoryOf s = "Good") ∧
      (50 ≤ s → s < 65 → categoryOf s = "Moderate") ∧
      (35 ≤ s → s < 50 → categoryOf s = "Poor") ∧
      (s < 35 → categoryOf s = "Very Poor")) ∧
    categoryOf 80 = "Excellent" ∧ categoryOf (79999 / 1000) = "Good" ∧
    categoryOf 50 = "Moderate" ∧ categoryOf (49999 / 1000) = "Poor" ∧
    categoryOf 0 = "Very Poor" := by
  have hband : ∀ s : ℚ,
      (80 ≤ s → categoryOf s = "Excellent") ∧
      (65 ≤ s → s < 80 → categoryOf s = "Good") ∧
      (50 ≤ s → s < 65 → categoryOf s = "Moderate") ∧
      (35 ≤ s → s < 50 → categoryOf s = "Poor") ∧
      (s < 35 → categoryOf s = "Very Poor") := by
    intro s
    unfold categoryOf catExcellent catGood catModerate catPoor catVeryPoor
    refine ⟨?_, ?_, ?_, ?_, ?_⟩ <;> intros <;> split_ifs <;>
      first
        | rfl
        | (exfalso; linarith)
  refine ⟨fun b a => rfl, hband, ?_, ?_, ?_, ?_, ?_⟩
  · exact (hband 80).1 (by norm_num)
  · exact (hband (79999 / 1000)).2.1 (by norm_num) (by norm_num)
  · exact (hband 50).2.2.1 (by norm_num) (by norm_num)
  · exact (hband (49999 / 1000)).2.2.2.1 (by norm_num) (by norm_num)
  · exact (hband 0).2.2.2.2 (by norm_num)

/-- Witness for C4 at concrete scores in each band. -/
theorem c4_category_thresholds_witness :
    categoryOf 90 = "Excellent" ∧ categoryOf 70 = "Good" ∧
    categoryOf 55 = "Moderate" ∧ categoryOf 40 = "Poor" ∧
    categoryOf 10 = "Very Poor" :=
  ⟨(c4_category_thresholds.2.1 90).1 (by norm_num),
   (c4_category_thresholds.2.1 70).2.1 (by norm_num) (by norm_num),
   (c4_category_thresholds.2.1 55).2.2.1 (by norm_num) (by norm_num),
   (c4_category_thresholds.2.1 40).2.2.2.1 (by norm_num) (by norm_num),
   (c4_category_thresholds.2.1 10).2.2.2.2 (by norm_num)⟩

/-- Claim C5: the reported confidence is exactly
clip (70 - 5 * sum of absolute std differences) 50 95, hence always
between 50 and 95. -/
theorem c5_confidence_formula :
    ∀ before after : List (String × ℚ),
      (impact_analysis before after).confidence =
        clip (70 - 5 * noise_of before after) 50 95 ∧
      50 ≤ (impact_analysis before after).confidence ∧
      (impact_analysis before after).confidence ≤ 95 := by
  intro b a
  have h : (impact_analysis b a).confidence = clip (70 - noise_of b a * 5) 50 95 := rfl
  refine ⟨?_, ?_, ?_⟩
  · rw [h, mul_comm]
  · rw [h]
    exact (clip_mem _ _ _ (by norm_num)).1
  · rw [h]
    exact (clip_mem _ _ _ (by norm_num)).2

/-- Claim C9: the penalty term is non-negative, so the reported confidence
always lies in the band from 50 to 70 and the upper clamp at 95 is never
reached. -/
theorem c9_confidence_at_most_70 :
    ∀ before after : List (String × ℚ),
      50 ≤ (impact_analysis before after).confidence ∧
      (impact_analysis before after).confidence ≤ 70 := by
  intro b a
  have h : (impact_analysis b a).confidence = clip (70 - noise_of b a * 5) 50 95 := rfl
  rw [h]
  refine ⟨(clip_mem _ _ _ (by norm_num)).1, ?_⟩
  have hn : 0 ≤ noise_of b a := noise_nonneg b a
  have h5 : 70 - noise_of b a * 5 ≤ 70 := by nlinarith
  calc clip (70 - noise_of b a * 5) 50 95
      ≤ max 50 (70 - noise_of b a * 5) := min_le_right _ _
    _ ≤ 70 := max_le (by norm_num) h5

/-- Claim C10: a metric key absent from a summary is read as 0 by
dict.get, and the percent change of a metric whose mean key is absent
from both summaries is 0; the lookup itself is total. -/
theorem c10_missing_keys_default :
    (∀ (d : List (String × ℚ)) (k : String) (v : ℚ),
      (∀ kv ∈ d, kv.1 ≠ k) → dictGet d k v = v) ∧
    ∀ (before after : List (String × ℚ)) (m : String),
      (∀ kv ∈ before, kv.1 ≠ m ++ sMean) →
      (∀ kv ∈ after, kv.1 ≠ m ++ sMean) →
      change_pct before after m = 0 := by
  have hget : ∀ (d : List (String × ℚ)) (k : String) (v : ℚ),
      (∀ kv ∈ d, kv.1 ≠ k) → dictGet d k v = v := by
    intro d k v h
    unfold dictGet
    have hnone : d.find? (fun kv => kv.1 == k) = none := by
      apply List.find?_eq_none.mpr
      intro kv hkv
      simpa using h kv hkv
    rw [hnone]
  refine ⟨hget, ?_⟩
  intro b a m hb ha
  simp only [change_pct]
  rw [hget b _ 0 hb, hget a _ 0 ha]
  simp

/-- Witness for C10 on empty summaries. -/
theorem c10_missing_keys_default_witness :
    dictGet ([] : List (String × ℚ)) metNdvi 5 = 5 ∧
    change_pct ([] : List (String × ℚ)) ([] : List (String × ℚ)) metNdvi = 0 :=
  ⟨c10_missing_keys_default.1 ([] : List (String × ℚ)) metNdvi 5 (by simp),
   c10_missing_keys_default.2 ([] : List (String × ℚ)) ([] : List (String × ℚ)) metNdvi
     (by simp) (by simp)⟩

/-- Before-summary of the doubled-means scenario: means 0.2, 0.1, 0.1, 0.1
for ndvi, evi, fvc, lai and all four stds 0. -/
def before6 : List (String × ℚ) :=
  [(metNdvi ++ sMean, 0.2), (metEvi ++ sMean, 0.1),
   (metFvc ++ sMean, 0.1), (metLai ++ sMean, 0.1),
   (metNdvi ++ sStd, 0), (metEvi ++ sStd, 0),
   (metFvc ++ sStd, 0), (metLai ++ sStd, 0)]

/-- After-summary of the doubled-means scenario: every mean doubled,
stds unchanged at 0. -/
def after6 : List (String × ℚ) :=
  [(metNdvi ++ sMean, 0.4), (metEvi ++ sMean, 0.2),
   (metFvc ++ sMean, 0.2), (metLai ++ sMean, 0.2),
   (metNdvi ++ sStd, 0), (metEvi ++ sStd, 0),
   (metFvc ++ sStd, 0), (metLai ++ sStd, 0)]

theorem change_pct_before6_ndvi :
    change_pct before6 after6 metNdvi = 20000000 / 200001 := by
  have hb : dictGet before6 (metNdvi ++ sMean) 0 = 0.2 := rfl
  have ha : dictGet after6 (metNdvi ++ sMean) 0 = 0.4 := rfl
  simp only [change_pct]
  rw [hb, ha, EPS, abs_of_pos (by norm_num : (0 : ℚ) < 0.2)]
  norm_num

theorem change_pct_before6_evi :
    change_pct before6 after6 metEvi = 10000000 / 100001 := by
  have hb : dictGet before6 (metEvi ++ sMean) 0 = 0.1 := rfl
  have ha : dictGet after6 (metEvi ++ sMean) 0 = 0.2 := rfl
  simp only [change_pct]
  rw [hb, ha, EPS, abs_of_pos (by norm_num : (0 : ℚ) < 0.1)]
  norm_num

theorem change_pct_before6_fvc :
    change_pct before6 after6 metFvc = 10000000 / 100001 := by
  have hb : dictGet before6 (metFvc ++ sMean) 0 = 0.1 := rfl
  have ha : dictGet after6 (metFvc ++ sMean) 0 = 0.2 := rfl
  simp only [change_pct]
  rw [hb, ha, EPS, abs_of_pos (by norm_num : (0 : ℚ) < 0.1)]
  norm_num

theorem change_pct_before6_lai :
    change_pct before6 after6 metLai = 10000000 / 100001 := by
  have hb : dictGet before6 (metLai ++ sMean) 0 = 0.1 := rfl
  have ha : dictGet after6 (metLai ++ sMean) 0 = 0.2 := rfl
  simp only [change_pct]
  rw [hb, ha, EPS, abs_of_pos (by norm_num : (0 : ℚ) < 0.1)]
  norm_num

theorem weighted_before6 :
    weighted_score_of before6 after6 = 8000000 / 200001 + 6000000 / 100001 := by
  simp only [weighted_score_of, change_pct_before6_ndvi, change_pct_before6_evi,
    change_pct_before6_fvc, change_pct_before6_lai]
  norm_num

theorem noise_before6 : noise_of before6 after6 = 0 := by
  have h1 : dictGet before6 (metNdvi ++ sStd) 0 = 0 := rfl
  have h2 : dictGet before6 (metEvi ++ sStd) 0 = 0 := rfl
  have h3 : dictGet before6 (metFvc ++ sStd) 0 = 0 := rfl
  have h4 : dictGet before6 (metLai ++ sStd) 0 = 0 := rfl
  have h5 : dictGet after6 (metNdvi ++ sStd) 0 = 0 := rfl
  have h6 : dictGet after6 (metEvi ++ sStd) 0 = 0 := rfl
  have h7 : dictGet after6 (metFvc ++ sStd) 0 = 0 := rfl
  have h8 : dictGet after6 (metLai ++ sStd) 0 = 0 := rfl
  simp only [noise_of, List.map_cons, List.map_nil, List.sum_cons, List.sum_nil,
    h1, h2, h3, h4, h5, h6, h7, h8]
  norm_num

theorem impact_score_before6 :
    (impact_analysis before6 after6).impact_score =
      50 + (8000000 / 200001 + 6000000 / 100001) / 2 := by
  show clip (50 + weighted_score_of before6 after6 / 2) 0 100 = _
  rw [weighted_before6]
  unfold clip
  norm_num

/-- Counterexample for C6: in the doubled-means scenario the weighted score
and the impact score are strictly below 100, not equal to 100, because each
percent change is damped by the EPS term added to the denominator. -/
theorem c6_counterexample :
    (impact_analysis before6 after6).weighted_score ≠ 100 ∧
    (impact_analysis before6 after6).impact_score ≠ 100 := by
  have hw : (impact_analysis before6 after6).weighted_score =
      8000000 / 200001 + 6000000 / 100001 := weighted_before6
  constructor
  · rw [hw]
    norm_num
  · rw [impact_score_before6]
    norm_num

/-- Amended C6: the doubled-means scenario yields the exact weighted score
8000000 / 200001 + 6000000 / 100001, which lies strictly between 99.999 and
100; the impact score is 50 plus half of it (the clamp is inactive), the
category is Excellent and the confidence is 70. -/
theorem c6_doubled_means_scenario :
    (impact_analysis before6 after6).weighted_score =
      8000000 / 200001 + 6000000 / 100001 ∧
    99999 / 1000 < (impact_analysis before6 after6).weighted_score ∧
    (impact_analysis before6 after6).weighted_score < 100 ∧
    (impact_analysis before6 after6).impact_score =
      50 + (8000000 / 200001 + 6000000 / 100001) / 2 ∧
    (impact_analysis before6 after6).category = "Excellent" ∧
    (impact_analysis before6 after6).confidence = 70 := by
  have hw : (impact_analysis before6 after6).weighted_score =
      8000000 / 200001 + 6000000 / 100001 := weighted_before6
  refine ⟨hw, ?_, ?_, impact_score_before6, ?_, ?_⟩
  · rw [hw]
    norm_num
  · rw [hw]
    norm_num
  · show categoryOf (impact_analysis before6 after6).impact_score = _
    rw [impact_score_before6]
    unfold categoryOf
    rw [if_pos (by norm_num : (50 + (8000000 / 200001 + 6000000 / 100001 : ℚ) / 2) ≥ 80)]
    rfl
  · show clip (70 - noise_of before6 after6 * 5) 50 95 = 70
    rw [noise_before6]
    unfold clip
    norm_num

/-- Claim C1: for a raster whose channels all lie in the unit interval,
every value of each of the six computed index rasters lies within the
declared clamp range; in the exact-arithmetic model no NaN or infinity can
arise, and the final clip enforces the range for every pixel. -/
theorem c1_indices_within_range (r : List Pixel)
    (_h : ∀ p ∈ r, 0 ≤ p.R ∧ p.R ≤ 1 ∧ 0 ≤ p.G ∧ p.G ≤ 1 ∧ 0 ≤ p.B ∧ p.B ≤ 1) :
    (∀ x ∈ (compute_indices r).ndvi, -1 ≤ x ∧ x ≤ 1) ∧
    (∀ x ∈ (compute_indices r).evi, -1 ≤ x ∧ x ≤ 1) ∧
    (∀ x ∈ (compute_indices r).ndwi, -1 ≤ x ∧ x ≤ 1) ∧
    (∀ x ∈ (compute_indices r).savi, -1 ≤ x ∧ x ≤ 1) ∧
    (∀ x ∈ (compute_indices r).fvc, 0 ≤ x ∧ x ≤ 1) ∧
    (∀ x ∈ (compute_indices r).lai, 0 ≤ x ∧ x ≤ 6) := by
  refine ⟨?_, ?_, ?_, ?_, ?_, ?_⟩ <;>
    · intro x hx
      simp only [compute_indices, List.mem_map] at hx
      obtain ⟨p, hp, rfl⟩ := hx
      exact clip_mem _ _ _ (by norm_num)

/-- Witness for C1 on the all-zero one-pixel raster. -/
theorem c1_indices_within_range_witness :
    (∀ x ∈ (compute_indices [⟨0, 0, 0⟩]).ndvi, -1 ≤ x ∧ x ≤ 1) ∧
    (∀ x ∈ (compute_indices [⟨0, 0, 0⟩]).evi, -1 ≤ x ∧ x ≤ 1) ∧
    (∀ x ∈ (compute_indices [⟨0, 0, 0⟩]).ndwi, -1 ≤ x ∧ x ≤ 1) ∧
    (∀ x ∈ (compute_indices [⟨0, 0, 0⟩]).savi, -1 ≤ x ∧ x ≤ 1) ∧
    (∀ x ∈ (compute_indices [⟨0, 0, 0⟩]).fvc, 0 ≤ x ∧ x ≤ 1) ∧
    (∀ x ∈ (compute_indices [⟨0, 0, 0⟩]).lai, 0 ≤ x ∧ x ≤ 6) :=
  c1_indices_within_range [⟨0, 0, 0⟩]
    (by
      intro p hp
      simp only [List.mem_singleton] at hp
      subst hp
      norm_num)

/-- Counterexample for C2: at NDVI exactly 0.86 the FVC value is
(660000 / 660001) squared, strictly below 1, because EPS inflates the
denominator of the anchor ratio; so FVC does not reach 1 at the
vegetation anchor itself. -/
theorem c2_counterexample :
    (86 / 100 : ℚ) ≥ 86 / 100 ∧ fvc_of_ndvi (86 / 100) ≠ 1 := by
  refine ⟨le_refl _, ?_⟩
  unfold fvc_of_ndvi ndvi_soil ndvi_veg EPS clip
  norm_num

/-- Amended C2: FVC as a function of NDVI is monotone non-decreasing on
NDVI at least the soil anchor 0.2, and saturates at exactly 1 once NDVI is
at least the vegetation anchor plus EPS, 0.86 + 1e-6. -/
theorem c2_fvc_monotone_saturation :
    (∀ x y : ℚ, ndvi_soil ≤ x → x ≤ y → fvc_of_ndvi x ≤ fvc_of_ndvi y) ∧
    ∀ v : ℚ, ndvi_veg + EPS ≤ v → fvc_of_ndvi v = 1 := by
  have hc : (0 : ℚ) < ndvi_veg - ndvi_soil + EPS := by
    unfold ndvi_veg ndvi_soil EPS
    norm_num
  constructor
  · intro x y _ hxy
    unfold fvc_of_ndvi
    have h1 : (x - ndvi_soil) / (ndvi_veg - ndvi_soil + EPS) ≤
        (y - ndvi_soil) / (ndvi_veg - ndvi_soil + EPS) :=
      (div_le_div_iff_of_pos_right hc).mpr (by linarith)
    have h0 : 0 ≤ clip ((x - ndvi_soil) / (ndvi_veg - ndvi_soil + EPS)) 0 1 :=
      (clip_mem _ _ _ (by norm_num)).1
    exact pow_le_pow_left₀ h0 (clip_mono 0 1 h1) 2
  · intro v hv
    unfold fvc_of_ndvi
    have h1 : 1 ≤ (v - ndvi_soil) / (ndvi_veg - ndvi_soil + EPS) := by
      rw [le_div_iff₀ hc]
      linarith
    have h2 : clip ((v - ndvi_soil) / (ndvi_veg - ndvi_soil + EPS)) 0 1 = 1 := by
      unfold clip
      rw [max_eq_right (le_trans zero_le_one h1), min_eq_left h1]
    rw [h2]
    norm_num

/-- Witness for C2 amended, at NDVI values 0.3 against 0.5 and at 1. -/
theorem c2_fvc_monotone_saturation_witness :
    fvc_of_ndvi 0.3 ≤ fvc_of_ndvi 0.5 ∧ fvc_of_ndvi 1 = 1 :=
  ⟨c2_fvc_monotone_saturation.1 0.3 0.5 (by norm_num [ndvi_soil]) (by norm_num),
   c2_fvc_monotone_saturation.2 1 (by norm_num [ndvi_veg, EPS])⟩

/-- Claim C7: the four reductions of a metrics summary are invariant under
any permutation of the raster elements. -/
theorem c7_summary_perm_invariant (l₁ l₂ : List ℝ) (h : l₁.Perm l₂) :
    metrics_summary l₁ = metrics_summary l₂ := by
  have hmean : listMean l₁ = listMean l₂ := by
    unfold listMean
    rw [h.sum_eq, h.length_eq]
  have hstd : listStd l₁ = listStd l₂ := by
    unfold listStd
    rw [hmean, (h.map (fun x => (x - listMean l₂) ^ 2)).sum_eq, h.length_eq]
  have hmax : listMax l₁ = listMax l₂ := by
    unfold listMax
    rw [Multiset.coe_eq_coe.mpr (h.map (fun (x : ℝ) => (x : WithBot ℝ)))]
  have hmin : listMin l₁ = listMin l₂ := by
    unfold listMin
    rw [Multiset.coe_eq_coe.mpr (h.map (fun (x : ℝ) => (x : WithTop ℝ)))]
  unfold metrics_summary
  rw [hmean, hstd, hmax, hmin]

/-- Witness for C7 on a two-element raster and its transposition. -/
theorem c7_summary_perm_invariant_witness :
    metrics_summary [0, 1] = metrics_summary [1, 0] :=
  c7_summary_perm_invariant [0, 1] [1, 0] (List.Perm.swap 1 0 [])

/-- Claim C8: the composed pipeline of index computation and aggregation is
a pure function: it always produces the 24-entry summary, and equal input
rasters give identical summaries. -/
theorem c8_metrics_deterministic :
    (∀ r : List Pixel, (compute_metrics r).length = 24) ∧
    ∀ r₁ r₂ : List Pixel, r₁ = r₂ → compute_metrics r₁ = compute_metrics r₂ := by
  constructor
  · intro r
    simp [compute_metrics, summary_entries]
  · intro r₁ r₂ h
    rw [h]

/-- Witness for C8 on the all-zero one-pixel raster. -/
theorem c8_metrics_deterministic_witness :
    compute_metrics [⟨0, 0, 0⟩] = compute_metrics [⟨0, 0, 0⟩] :=
  c8_metrics_deterministic.2 [⟨0, 0, 0⟩] [⟨0, 0, 0⟩] rfl

end VeriLeaf
